import Mathlib

/-!
Shallow embedding of `intake/readers/readers.py`: the reader capability
declarations, the `BaseReader.read` fan-out/merge logic, `check_imports`,
`recommend`, the DuckDB query templating, and the `PandasCSV.glimpse`
preview, together with theorems settling the specification claims about
them.
-/

namespace Intake

/-- A Python value stored in a keyword-argument mapping. Values stay
symbolic: integers, strings, and otherwise opaque objects identified by a
numeric tag (used for storage-options mappings, whose internal structure
the dispatch core never inspects). -/
inductive PyVal where
  | int : Int → PyVal
  | str : String → PyVal
  | blob : Nat → PyVal
deriving DecidableEq

/-- A Python `dict` of keyword arguments: an insertion-ordered association
list whose keys are unique whenever it is built from a unique-key list via
`setItem` / `updateDict` (as all dicts in `readers.py` are). -/
abbrev Dict := List (String × PyVal)

/-- Python `k in m`. -/
def hasKey (m : Dict) (k : String) : Bool :=
  match m with
  | [] => false
  | p :: rest => p.1 == k || hasKey rest k

/-- Python `m[k] = v`: replace the value at an existing key in place,
keeping its position, else append the new binding at the end. -/
def setItem (m : Dict) (k : String) (v : PyVal) : Dict :=
  if hasKey m k then
    m.map (fun p => if p.1 = k then (k, v) else p)
  else
    m ++ [(k, v)]

/-- Python `m[k]` as a partial lookup (first binding wins; dicts built by
`setItem` have unique keys, so this is the binding). -/
def getItem (m : Dict) (k : String) : Option PyVal :=
  match m with
  | [] => none
  | p :: rest => if p.1 = k then some p.2 else getItem rest k

/-- Python `m.update(other)`: write every binding of `other` into `m`, in
order, with `other` winning on key collisions. -/
def updateDict (m other : Dict) : Dict :=
  other.foldl (fun acc kv => setItem acc kv.1 kv.2) m

/-- First-defined choice on optional values (used to state which side wins
a key collision). -/
def orOpt (a b : Option PyVal) : Option PyVal :=
  match a with
  | some v => some v
  | none => b

theorem hasKey_replaceAll (m : Dict) (k : String) (v : PyVal) :
    hasKey (m.map (fun p => if p.1 = k then (k, v) else p)) k = hasKey m k := by
  induction m with
  | nil => rfl
  | cons p rest ih =>
    by_cases hp : p.1 = k
    · simp [hasKey, hp]
    · simp [hasKey, hp, beq_iff_eq, ih]

theorem hasKey_append_single (m : Dict) (k : String) (v : PyVal) :
    hasKey (m ++ [(k, v)]) k = true := by
  induction m with
  | nil => simp [hasKey]
  | cons p rest ih => simp [hasKey, ih]

theorem hasKey_setItem_self (m : Dict) (k : String) (v : PyVal) :
    hasKey (setItem m k v) k = true := by
  unfold setItem
  by_cases h : hasKey m k
  · rw [if_pos h, hasKey_replaceAll]; exact h
  · rw [if_neg h, hasKey_append_single]

theorem getItem_replaceAll_self (m : Dict) (k : String) (v : PyVal)
    (h : hasKey m k = true) :
    getItem (m.map (fun p => if p.1 = k then (k, v) else p)) k = some v := by
  induction m with
  | nil => simp [hasKey] at h
  | cons p rest ih =>
    by_cases hp : p.1 = k
    · simp [getItem, hp]
    · have h' : hasKey rest k = true := by
        simpa [hasKey, hp, beq_iff_eq] using h
      simp [getItem, hp, ih h']

theorem getItem_append_single_self (m : Dict) (k : String) (v : PyVal)
    (h : hasKey m k = false) :
    getItem (m ++ [(k, v)]) k = some v := by
  induction m with
  | nil => simp [getItem]
  | cons p rest ih =>
    rw [hasKey, Bool.or_eq_false_iff] at h
    have hp : ¬ p.1 = k := by simpa [beq_iff_eq] using h.1
    simp [getItem, hp, ih h.2]

theorem getItem_setItem_self (m : Dict) (k : String) (v : PyVal) :
    getItem (setItem m k v) k = some v := by
  unfold setItem
  by_cases h : hasKey m k
  · rw [if_pos h]; exact getItem_replaceAll_self m k v h
  · rw [if_neg h]
    exact getItem_append_single_self m k v (by simpa using h)

theorem getItem_replaceAll_ne (m : Dict) (k k' : String) (v : PyVal)
    (h : k' ≠ k) :
    getItem (m.map (fun p => if p.1 = k then (k, v) else p)) k' = getItem m k' := by
  induction m with
  | nil => rfl
  | cons p rest ih =>
    by_cases hp : p.1 = k
    · have hkk : ¬ k = k' := fun e => h e.symm
      have hpk : ¬ p.1 = k' := by rw [hp]; exact hkk
      simp [getItem, hp, hkk, hpk, ih]
    · by_cases hp' : p.1 = k'
      · simp [getItem, hp, hp', h]
      · simp [getItem, hp, hp', ih]

theorem getItem_append_single_ne (m : Dict) (k k' : String) (v : PyVal)
    (h : k' ≠ k) :
    getItem (m ++ [(k, v)]) k' = getItem m k' := by
  have hkk : ¬ k = k' := fun e => h e.symm
  induction m with
  | nil => simp [getItem, hkk]
  | cons p rest ih =>
    by_cases hp' : p.1 = k'
    · simp [getItem, hp']
    · simp [getItem, hp', ih]

theorem getItem_setItem_ne (m : Dict) (k k' : String) (v : PyVal)
    (h : k' ≠ k) : getItem (setItem m k v) k' = getItem m k' := by
  unfold setItem
  by_cases hc : hasKey m k
  · rw [if_pos hc]; exact getItem_replaceAll_ne m k k' v h
  · rw [if_neg hc]; exact getItem_append_single_ne m k k' v h

theorem getItem_eq_none_of_hasKey_false (m : Dict) (k : String)
    (h : hasKey m k = false) : getItem m k = none := by
  induction m with
  | nil => rfl
  | cons p rest ih =>
    rw [hasKey, Bool.or_eq_false_iff] at h
    have hp : ¬ p.1 = k := by simpa [beq_iff_eq] using h.1
    simp [getItem, hp, ih h.2]

theorem hasKey_eq_false_of_not_mem (m : Dict) (k : String)
    (h : k ∉ m.map Prod.fst) : hasKey m k = false := by
  induction m with
  | nil => rfl
  | cons p rest ih =>
    simp only [List.map_cons, List.mem_cons, not_or] at h
    have hp : ¬ p.1 = k := fun e => h.1 e.symm
    simp [hasKey, beq_iff_eq, hp, ih h.2]

theorem getItem_updateDict (m o : Dict) (k : String)
    (hnd : (o.map Prod.fst).Nodup) :
    getItem (updateDict m o) k = orOpt (getItem o k) (getItem m k) := by
  induction o generalizing m with
  | nil => simp [updateDict, getItem, orOpt]
  | cons a rest ih =>
    simp only [List.map_cons, List.nodup_cons] at hnd
    have step : updateDict m (a :: rest) = updateDict (setItem m a.1 a.2) rest := rfl
    rw [step, ih _ hnd.2]
    by_cases hk : a.1 = k
    · subst hk
      rw [getItem_eq_none_of_hasKey_false rest a.1
        (hasKey_eq_false_of_not_mem rest a.1 hnd.1)]
      simp [getItem, orOpt, getItem_setItem_self]
    · have hne : ¬ k = a.1 := fun e => hk e.symm
      rw [getItem_setItem_ne m a.1 k a.2 hne]
      simp [getItem, orOpt, hk]

/-- The data-type classes of `intake.readers.datatypes` referenced by
`readers.py` (the `datatypes` module itself is external to the file).
Membership of `type(data)` in an `implements` set is class identity, i.e.
equality of kinds. -/
inductive DataKind where
  | Parquet
  | CSV
  | JSONFile
  | SQLQuery
deriving DecidableEq

/-- A data descriptor instance (`self.data`): the attributes of the external
datatype objects that `readers.py` reads — the resolved primary `url`, the
ordered `filelist`, the stored `kwargs`, the `storage_options`, and the
kind-specific `query` text and `conn` spec of SQL-type data. A datatype with
no `conn` attribute is `conn = none` (`getattr(self.data, "conn", {})`); a
dict-valued `conn` is passed through unchanged in the source and is not
modelled (no claim depends on it). -/
structure DataDesc where
  kind : DataKind
  url : String
  filelist : List String
  kwargs : Dict
  storage_options : PyVal
  query : String
  conn : Option String
deriving DecidableEq

/-- The `func` attribute of a reader class: either a string naming the
backend function (`"module:name"`, resolved by `import_name` only when a
read actually happens) or, for `DuckDB`, a method defined on the class
itself. -/
inductive FuncSpec where
  | ref : String → FuncSpec
  | duckMethod : FuncSpec
deriving DecidableEq

/-- The static capability declaration of one reader class, with inherited
class attributes resolved the way Python attribute lookup resolves them.
`imports`, `implements` and `optional_imports` are Python sets, modelled as
lists (iteration order is fixed by the list). -/
structure Variant where
  imports : List String
  implements : List DataKind
  optional_imports : List String
  func : FuncSpec
  concat_func : Option String
  url_arg : Option String
  output_instance : Option String
  storage_options : Bool
deriving DecidableEq

/-- `class Pandas(BaseReader)`: abstract dataframe base, implements nothing
itself; `func` is the inherited `BaseReader` default. -/
def Pandas : Variant :=
  { imports := ["pandas"]
    implements := []
    optional_imports := []
    func := .ref "builtins:NotImplementedError"
    concat_func := some "pandas:concat"
    url_arg := none
    output_instance := some "pandas:DataFrame"
    storage_options := false }

/-- `class PandasParquet(Pandas)`: `concat_func` reset to `None` (pandas
concats internally); the source spells the function name `read_parquqet`
(kept verbatim). -/
def PandasParquet : Variant :=
  { imports := ["pandas"]
    implements := [.Parquet]
    optional_imports := ["fastparquet", "pyarrow"]
    func := .ref "pandas:read_parquqet"
    concat_func := none
    url_arg := some "path"
    output_instance := some "pandas:DataFrame"
    storage_options := false }

/-- `class DaskParquet(BaseReader)`. -/
def DaskParquet : Variant :=
  { imports := ["dask.dataframe"]
    implements := [.Parquet]
    optional_imports := ["fastparquet", "pyarrow"]
    func := .ref "dask.dataframe:read_parquet"
    concat_func := none
    url_arg := some "path"
    output_instance := some "dask.dataframe:DataFrame"
    storage_options := false }

/-- `class DuckDB(BaseReader)`: `func` is a method on the class; its
`glimpse` override (`self.read().limit(10)`) is not needed by any claim and
is not modelled. -/
def DuckDB : Variant :=
  { imports := ["duckdb"]
    implements := [.Parquet, .CSV, .JSONFile, .SQLQuery]
    optional_imports := []
    func := .duckMethod
    concat_func := none
    url_arg := none
    output_instance := some "duckdb.DuckDBPyRelation"
    storage_options := false }

/-- `class PandasDuck(Pandas)`: a delegating variant; its `read`/`glimpse`
overrides (delegating to an internal `DuckDB` reader) are not needed by any
claim; the recommendation engine sees only this capability record. -/
def PandasDuck : Variant :=
  { imports := ["duckdb", "pandas"]
    implements := [.Parquet, .CSV, .JSONFile, .SQLQuery]
    optional_imports := []
    func := .ref "builtins:NotImplementedError"
    concat_func := some "pandas:concat"
    url_arg := none
    output_instance := some "pandas:DataFrame"
    storage_options := false }

/-- `class Awkward(BaseReader)`. -/
def Awkward : Variant :=
  { imports := ["awkward"]
    implements := []
    optional_imports := []
    func := .ref "builtins:NotImplementedError"
    concat_func := none
    url_arg := none
    output_instance := some "awkward:Array"
    storage_options := false }

/-- `class AwkwardParquet(Awkward)`; its `glimpse` override passes
`row_groups=[0]` and is not needed by any claim. -/
def AwkwardParquet : Variant :=
  { imports := ["awkward", "pyarrow"]
    implements := [.Parquet]
    optional_imports := []
    func := .ref "awkward:from_parquet"
    concat_func := none
    url_arg := some "path"
    output_instance := some "awkward:Array"
    storage_options := false }

/-- `class PandasCSV(Pandas)`. -/
def PandasCSV : Variant :=
  { imports := ["pandas"]
    implements := [.CSV]
    optional_imports := []
    func := .ref "pandas:read_csv"
    concat_func := some "pandas:concat"
    url_arg := some "filepath_or_buffer"
    output_instance := some "pandas:DataFrame"
    storage_options := false }

/-- Modelled from the spec: the registry enumeration `subclasses(BaseReader)`
(the `subclasses` helper lives in `intake.readers.utils`, which is not under
`src/`); per the spec it enumerates every registered reader variant,
including indirect subclass definitions, here the strict subclasses of
`BaseReader` declared in `readers.py` in declaration order. -/
def sourceRegistry : List Variant :=
  [Pandas, PandasParquet, DaskParquet, DuckDB, PandasDuck, Awkward,
   AwkwardParquet, PandasCSV]

/-- The kwargs handed to `duckdb.connect`: `conn = getattr(self.data, "conn", {})`,
and a string `conn` becomes `{"database": conn}`. -/
def duckdbConnKw (d : DataDesc) : List (String × String) :=
  match d.conn with
  | none => []
  | some s => [("database", s)]

/-- The SQL text executed by `DuckDB.func`: the per-datatype template with
its single replacement field already substituted (`str.format` inserts the
attribute value itself and does not re-format it, so the `SQLQuery` template
`"{self.data.query}"` yields the query text verbatim). -/
def duckdbQueryText (d : DataDesc) : String :=
  match d.kind with
  | .Parquet => "SELECT * FROM read_parquet(\x27" ++ d.url ++ "\x27)"
  | .CSV => "SELECT * FROM read_csv_auto(\x27" ++ d.url ++ "\x27)"
  | .JSONFile => "SELECT * FROM read_json_auto(\x27" ++ d.url ++ "\x27)"
  | .SQLQuery => d.query

/-- The artifact a load produces. Backend calls are symbolic: `loaded`
records which backend function ran and the exact keyword arguments it
received; `concatted` records the concat function name and the parts in
order; `relation` is DuckDB's native relation, recording the connection
kwargs and the executed SQL text. -/
inductive Artifact where
  | loaded : String → Dict → Artifact
  | concatted : String → List Artifact → Artifact
  | relation : List (String × String) → String → Artifact

/-- `DuckDB.func(self, **kwargs)`: connects with the descriptor's conn spec,
selects the query template for `type(self.data)`, formats it, and runs it;
the `**kwargs` it receives are ignored by its body. -/
def duckdbFunc (d : DataDesc) : Artifact :=
  Artifact.relation (duckdbConnKw d) (duckdbQueryText d)

/-- `self._func(**kw)`: a string `func` resolves through `import_name` to the
named backend function (the call is recorded symbolically); `DuckDB.func` is
the method. -/
def callFunc (v : Variant) (d : DataDesc) (kw : Dict) : Artifact :=
  match v.func with
  | .ref s => Artifact.loaded s kw
  | .duckMethod => duckdbFunc d

/-- Lines 52–55 of `readers.py`: `kw = self.data.kwargs.copy()`,
`kw.update(kwargs)`, then storage-options injection when the variant's flag
is set. -/
def buildKw (v : Variant) (d : DataDesc) (kwargs : Dict) : Dict :=
  let kw := updateDict d.kwargs kwargs
  if v.storage_options then setItem kw "storage_options" d.storage_options
  else kw

/-- Lines 66–69 of `readers.py`: `if self.url_arg: kw[self.url_arg] =
self.data.url` (note: unconditional on `kwargs`), then `self._func(**kw)`.
Python truthiness of the string attribute: `None` and `""` are falsy. -/
def readFlat (v : Variant) (d : DataDesc) (kw : Dict) : Artifact :=
  match v.url_arg with
  | none => callFunc v d kw
  | some u =>
    if u = "" then callFunc v d kw
    else callFunc v d (setItem kw u (PyVal.str d.url))

/-- Python truthiness of an optional string attribute (`self.concat_func`). -/
def strOptTruthy : Option String → Bool
  | none => false
  | some s => !(s == "")

/-- The combined condition under which lines 56–65 of `readers.py` take the
fan-out branch: `self.url_arg and self.url_arg not in kwargs and
self.concat_func` and `len(filelist) > 1`. -/
def fanoutGuard (v : Variant) (kwargs : Dict) (d : DataDesc) : Bool :=
  (match v.url_arg with
   | none => false
   | some u => !(u == "") && !(hasKey kwargs u))
  && strOptTruthy v.concat_func
  && decide (1 < d.filelist.length)

/-- Termination measure for `read`: a recursive sub-call always carries the
url parameter in its `kwargs`, which drops the measure from 1 to 0. -/
def fanoutMeasure (v : Variant) (kwargs : Dict) : Nat :=
  match v.url_arg with
  | none => 0
  | some u => if hasKey kwargs u then 0 else 1

/-- `BaseReader.read` (lines 47–69 of `readers.py`). In the fan-out branch
the loop mutates `kw[self.url_arg]` and recurses once per file; since the
only key the loop changes is `self.url_arg`, the iterations are the mapped
single-key writes below (replacement at the same position each time, exactly
as the mutated dict evolves). -/
def read (v : Variant) (d : DataDesc) (kwargs : Dict) : Artifact :=
  if hg : fanoutGuard v kwargs d = true then
    Artifact.concatted (v.concat_func.getD "")
      (d.filelist.map fun afile =>
        read v d (setItem (buildKw v d kwargs) (v.url_arg.getD "") (PyVal.str afile)))
  else
    readFlat v d (buildKw v d kwargs)
termination_by fanoutMeasure v kwargs
decreasing_by
  rcases hu : v.url_arg with _ | u
  · simp [fanoutGuard, hu] at hg
  · have h1 : hasKey (setItem (buildKw v d kwargs) u (PyVal.str afile)) u = true :=
      hasKey_setItem_self _ _ _
    have h2 : hasKey kwargs u = false := by
      simp only [fanoutGuard, hu, Bool.and_eq_true, Bool.not_eq_true'] at hg
      exact hg.1.1.2
    simp [fanoutMeasure, hu, h1, h2]

/-- `PandasCSV.glimpse` (lines 154–157 of `readers.py`):
`kw = {"nrows": 10, self.url_arg: self.data.filelist[0]}`, `kw.update(kwargs)`,
`return self.read(**kw)`. An empty file list makes `self.data.filelist[0]`
raise `IndexError`, modelled as `none`. -/
def pandasCSVGlimpse (d : DataDesc) (kwargs : Dict) : Option Artifact :=
  match d.filelist with
  | [] => none
  | f :: _ =>
    let kw : Dict :=
      [("nrows", PyVal.int 10), (PandasCSV.url_arg.getD "", PyVal.str f)]
    some (read PandasCSV d (updateDict kw kwargs))

/-- What one `importlib.metadata.distribution(package)` lookup does for a
given package name, as seen by `check_imports`: the package is found, or the
lookup raises. `notFound` stands for `PackageNotFoundError`, which subclasses
`ModuleNotFoundError`; `importError` and `nameError` are the other exception
classes named in the `except` clause; `otherError` is any exception outside
those classes. -/
inductive LookupResult where
  | found
  | notFound
  | importError
  | nameError
  | otherError
deriving DecidableEq

/-- Which exception classes the `except (ImportError, ModuleNotFoundError,
NameError)` clause of `check_imports` catches (`notFound` is caught because
`PackageNotFoundError` subclasses `ModuleNotFoundError`). -/
def caughtByExcept : LookupResult → Bool
  | .found => true
  | .notFound => true
  | .importError => true
  | .nameError => true
  | .otherError => false

/-- `BaseReader.check_imports` (lines 21–29 of `readers.py`): loop over the
required packages inside one `try`; the first lookup that raises either hits
the `except` clause (then the method returns `False`) or propagates
(modelled as `Except.error`). `env` is the external package-metadata oracle. -/
def check_imports (env : String → LookupResult) : List String → Except LookupResult Bool
  | [] => .ok true
  | p :: rest =>
    match env p with
    | .found => check_imports env rest
    | r => if caughtByExcept r then .ok false else .error r

/-- In `recommend`, the guard is `not cls.check_imports` — the classmethod
attribute itself, not a call. A bound-method object is always truthy in
Python, so this expression is `true` for every class. -/
def checkImportsAttrTruthy (_ : Variant) : Bool := true

/-- `recommend` (lines 160–168 of `readers.py`), over an explicit registry
list (see `sourceRegistry`): keeps a class when `type(data) in cls.implements`
and — when the flag is set — `not cls.check_imports` does not trigger the
`continue`. The result set is modelled as the filtered list (membership is
what the claims are about). -/
def recommend (registry : List Variant) (data : DataDesc)
    (check_imports : Bool) : List Variant :=
  registry.filter fun cls =>
    cls.implements.contains data.kind
      && !(check_imports && !(checkImportsAttrTruthy cls))

mutual

/-- Concat-nesting depth of an artifact: 0 for a plain backend call, one more
than the deepest part for a merge. -/
def Artifact.depth : Artifact → Nat
  | .loaded _ _ => 0
  | .relation _ _ => 0
  | .concatted _ parts => 1 + Artifact.depthList parts

/-- Maximum `Artifact.depth` over a list of parts. -/
def Artifact.depthList : List Artifact → Nat
  | [] => 0
  | a :: rest => max (Artifact.depth a) (Artifact.depthList rest)

end

mutual

/-- Every backend call recorded in the artifact received `sv` under the
`"storage_options"` keyword. -/
def Artifact.storageOk (sv : PyVal) : Artifact → Bool
  | .loaded _ kw => decide (getItem kw "storage_options" = some sv)
  | .relation _ _ => true
  | .concatted _ parts => Artifact.storageOkList sv parts

/-- `Artifact.storageOk` over a list of parts. -/
def Artifact.storageOkList (sv : PyVal) : List Artifact → Bool
  | [] => true
  | a :: rest => Artifact.storageOk sv a && Artifact.storageOkList sv rest

end

theorem read_eq_concat (v : Variant) (d : DataDesc) (kwargs : Dict)
    (hg : fanoutGuard v kwargs d = true) :
    read v d kwargs = Artifact.concatted (v.concat_func.getD "")
      (d.filelist.map fun afile =>
        read v d (setItem (buildKw v d kwargs) (v.url_arg.getD "") (PyVal.str afile))) := by
  conv_lhs => rw [read.eq_def]
  rw [dif_pos hg]

theorem read_eq_flat (v : Variant) (d : DataDesc) (kwargs : Dict)
    (hg : fanoutGuard v kwargs d = false) :
    read v d kwargs = readFlat v d (buildKw v d kwargs) := by
  conv_lhs => rw [read.eq_def]
  rw [dif_neg (by simp [hg])]

theorem fanoutGuard_false_of_hasKey (v : Variant) (kwargs : Dict)
    (d : DataDesc) (u : String) (hu : v.url_arg = some u)
    (hk : hasKey kwargs u = true) : fanoutGuard v kwargs d = false := by
  simp [fanoutGuard, hu, hk]

theorem fanoutGuard_dest (v : Variant) (kwargs : Dict) (d : DataDesc)
    (hg : fanoutGuard v kwargs d = true) :
    ∃ u, v.url_arg = some u ∧ u ≠ "" ∧ hasKey kwargs u = false := by
  rcases hu : v.url_arg with _ | u
  · simp [fanoutGuard, hu] at hg
  · simp only [fanoutGuard, hu, Bool.and_eq_true, Bool.not_eq_true',
      bne_iff_ne, ne_eq] at hg
    refine ⟨u, rfl, ?_, hg.1.1.2⟩
    have := hg.1.1.1
    simpa using this

theorem depth_callFunc (v : Variant) (d : DataDesc) (kw : Dict) :
    Artifact.depth (callFunc v d kw) = 0 := by
  cases hf : v.func <;> simp [callFunc, hf, duckdbFunc, Artifact.depth]

theorem depth_readFlat (v : Variant) (d : DataDesc) (kw : Dict) :
    Artifact.depth (readFlat v d kw) = 0 := by
  rcases hu : v.url_arg with _ | u
  · simp [readFlat, hu, depth_callFunc]
  · by_cases he : u = "" <;> simp [readFlat, hu, he, depth_callFunc]

theorem depthList_eq_zero (l : List Artifact)
    (h : ∀ a ∈ l, Artifact.depth a = 0) : Artifact.depthList l = 0 := by
  induction l with
  | nil => rfl
  | cons a rest ih =>
    simp only [Artifact.depthList]
    rw [h a (List.mem_cons_self a rest), ih fun b hb => h b (List.mem_cons_of_mem a hb)]
    simp

theorem storageOk_callFunc (v : Variant) (d : DataDesc) (kw : Dict)
    (sv : PyVal) (h : getItem kw "storage_options" = some sv) :
    Artifact.storageOk sv (callFunc v d kw) = true := by
  cases hf : v.func <;> simp [callFunc, hf, duckdbFunc, Artifact.storageOk, h]

theorem storageOkList_of_forall (sv : PyVal) (l : List Artifact)
    (h : ∀ a ∈ l, Artifact.storageOk sv a = true) :
    Artifact.storageOkList sv l = true := by
  induction l with
  | nil => rfl
  | cons a rest ih =>
    simp only [Artifact.storageOkList, Bool.and_eq_true]
    exact ⟨h a (List.mem_cons_self a rest), ih fun b hb => h b (List.mem_cons_of_mem a hb)⟩

/-- A CSV descriptor used as a concrete recommendation input. -/
def ddCSV : DataDesc :=
  { kind := .CSV, url := "a.csv", filelist := ["a.csv"], kwargs := [],
    storage_options := .blob 0, query := "", conn := none }

/-- An SQL-query descriptor with the literal query `SELECT 1`. -/
def ddSQL : DataDesc :=
  { kind := .SQLQuery, url := "", filelist := [], kwargs := [],
    storage_options := .blob 0, query := "SELECT 1", conn := some "tmp.db" }

/-- A package-metadata environment in which no package is installed: every
lookup raises `PackageNotFoundError`. -/
def envNone : String → LookupResult := fun _ => LookupResult.notFound

/-- A package-metadata environment in which only `pandas` is installed and
every other lookup raises `PackageNotFoundError`. -/
def envPandasOnly : String → LookupResult :=
  fun q => if q = "pandas" then LookupResult.found else LookupResult.notFound

/-- Claim C1 (code bug in `recommend`, line 165): the guard is
`check_imports and not cls.check_imports`, where `cls.check_imports` is the
classmethod attribute itself — never called — and a bound-method object is
always truthy in Python, so the guard never triggers: `recommend(D, True)`
equals `recommend(D, False)` for every registry and descriptor, and in
particular `PandasCSV` stays in `recommend(D, True)` in an environment where
its required `pandas` distribution is missing, even though the intended
dependency check `check_imports()` returns `False` there. -/
theorem c1_check_imports_flag_ineffective :
    (∀ (registry : List Variant) (d : DataDesc),
       recommend registry d true = recommend registry d false) ∧
    PandasCSV ∈ recommend [PandasCSV] ddCSV true ∧
    check_imports envNone PandasCSV.imports = Except.ok false := by
  refine ⟨fun registry d => ?_, ?_, ?_⟩
  · simp [recommend, checkImportsAttrTruthy]
  · decide
  · rfl

/-- Claim C3: a registered variant `V` is in `recommend(D, false)` exactly
when `D`'s kind is in `V`'s implements set, and a registry in which no
variant implements `D`'s kind yields the empty result (the function is
total, so it never raises). -/
theorem c3_recommend_iff (registry : List Variant) (d : DataDesc)
    (v : Variant) (hv : v ∈ registry) :
    (v ∈ recommend registry d false ↔ d.kind ∈ v.implements) ∧
    ((∀ w ∈ registry, d.kind ∉ w.implements) → recommend registry d false = []) := by
  constructor
  · simp [recommend, List.mem_filter, hv, List.contains, List.elem_iff]
  · intro hall
    rw [recommend, List.filter_eq_nil_iff]
    intro a ha
    have : ¬ a.implements.contains d.kind = true := by
      simpa [List.contains, List.elem_iff] using hall a ha
    simp [this]
    exact hall a ha

/-- Witness for C3: over the full source registry and a CSV descriptor,
`PandasCSV` is registered, is recommended, and implements CSV. -/
theorem c3_recommend_iff_witness :
    PandasCSV ∈ sourceRegistry ∧
    ((PandasCSV ∈ recommend sourceRegistry ddCSV false ↔
        ddCSV.kind ∈ PandasCSV.implements) ∧
      ((∀ w ∈ sourceRegistry, ddCSV.kind ∉ w.implements) →
        recommend sourceRegistry ddCSV false = [])) :=
  ⟨by decide, c3_recommend_iff sourceRegistry ddCSV PandasCSV (by decide)⟩

/-- Claim C7 counterexample: a lookup failure outside the
`(ImportError, ModuleNotFoundError, NameError)` clause — e.g. the
`ValueError` that `importlib.metadata.distribution` raises for an invalid
distribution name — propagates out of `check_imports` instead of being
treated as "not available", contradicting "never propagated to the
caller". -/
theorem c7_lookup_error_propagates :
    check_imports (fun _ => LookupResult.otherError) ["badpkg"] =
      Except.error LookupResult.otherError ∧
    check_imports (fun _ => LookupResult.otherError) ["badpkg"] ≠
      Except.ok false :=
  ⟨rfl, fun h => Except.noConfusion h⟩

/-- Claim C7 as amended: when every required-package lookup either succeeds
or raises one of the exception classes named in the `except` clause
(`ImportError`, `ModuleNotFoundError` — including its subclass
`PackageNotFoundError` — or `NameError`), `check_imports` never raises: it
returns `True` exactly when all packages are found and `False` otherwise;
lookup failures of any other exception class propagate
(`c7_lookup_error_propagates`). -/
theorem c7_check_imports_amended (env : String → LookupResult)
    (imports : List String)
    (h : ∀ p ∈ imports, env p ≠ LookupResult.otherError) :
    check_imports env imports =
      Except.ok (imports.all fun p => env p == LookupResult.found) := by
  induction imports with
  | nil => rfl
  | cons p rest ih =>
    have hp := h p (List.mem_cons_self p rest)
    have hrest : ∀ q ∈ rest, env q ≠ LookupResult.otherError :=
      fun q hq => h q (List.mem_cons_of_mem p hq)
    cases he : env p with
    | found => simp [check_imports, he, ih hrest, List.all_cons]
    | notFound => simp [check_imports, he, caughtByExcept, List.all_cons]
    | importError => simp [check_imports, he, caughtByExcept, List.all_cons]
    | nameError => simp [check_imports, he, caughtByExcept, List.all_cons]
    | otherError => exact absurd he hp

/-- Witness for the amended C7: with only `pandas` installed, a variant
requiring `pandas` and a nonexistent package gets `ok false` — no
exception. -/
theorem c7_check_imports_amended_witness :
    (∀ p ∈ ["pandas", "nosuchpackage"], envPandasOnly p ≠ LookupResult.otherError) ∧
    check_imports envPandasOnly ["pandas", "nosuchpackage"] =
      Except.ok ((["pandas", "nosuchpackage"]).all
        fun p => envPandasOnly p == LookupResult.found) :=
  ⟨by decide, c7_check_imports_amended envPandasOnly _ (by decide)⟩

/-- Claim C8: for a query-kind descriptor, the DuckDB variant's read
executes exactly the descriptor's literal query text (the `SQLQuery`
template is `"{self.data.query}"`, and `str.format` substitutes the
attribute value verbatim) against the connection built from the
descriptor's conn spec, returning the engine's native relation. -/
theorem c8_duckdb_query_verbatim (d : DataDesc) (o : Dict)
    (hk : d.kind = DataKind.SQLQuery) :
    read DuckDB d o = Artifact.relation (duckdbConnKw d) d.query := by
  have hg : fanoutGuard DuckDB o d = false := by simp [fanoutGuard, DuckDB]
  rw [read_eq_flat _ _ _ hg]
  simp [readFlat, DuckDB, callFunc, duckdbFunc, duckdbQueryText, hk]

/-- Witness for C8: `query = "SELECT 1"` is executed verbatim. -/
theorem c8_duckdb_query_verbatim_witness :
    ddSQL.kind = DataKind.SQLQuery ∧
    read DuckDB ddSQL [] = Artifact.relation [("database", "tmp.db")] "SELECT 1" :=
  ⟨rfl, (c8_duckdb_query_verbatim ddSQL [] rfl).trans rfl⟩

/-- A two-file CSV descriptor whose primary url differs from the file-list
entries. -/
def dd2 : DataDesc :=
  { kind := .CSV, url := "u.csv", filelist := ["f1.csv", "f2.csv"], kwargs := [],
    storage_options := .blob 0, query := "", conn := none }

/-- A one-file CSV descriptor whose primary url differs from the file-list
entry. -/
def dd6 : DataDesc :=
  { kind := .CSV, url := "all.csv", filelist := ["part0.csv"], kwargs := [],
    storage_options := .blob 0, query := "", conn := none }

/-- A descriptor whose stored kwargs are `{"x": 0, "y": 2}`. -/
def ddXY : DataDesc :=
  { kind := .CSV, url := "", filelist := [], kwargs := [("x", .int 0), ("y", .int 2)],
    storage_options := .blob 0, query := "", conn := none }

/-- Claim C2 (code bug in `BaseReader.read`): in the multi-file fan-out, the
loop writes `kw[self.url_arg] = afile`, but inside each recursive sub-call
the unconditional `if self.url_arg: kw[self.url_arg] = self.data.url`
(line 66–67) overwrites that per-file URL with the descriptor's primary url
before the backend runs, so every part is loaded from `data.url`, not from
its own file: with files `["f1.csv", "f2.csv"]` both backend calls receive
`filepath_or_buffer = "u.csv"`. -/
theorem c2_fanout_loads_primary_url :
    read PandasCSV dd2 [] =
      Artifact.concatted "pandas:concat"
        [Artifact.loaded "pandas:read_csv" [("filepath_or_buffer", PyVal.str "u.csv")],
         Artifact.loaded "pandas:read_csv" [("filepath_or_buffer", PyVal.str "u.csv")]] ∧
    dd2.filelist = ["f1.csv", "f2.csv"] ∧ dd2.url = "u.csv" := by
  refine ⟨?_, rfl, rfl⟩
  have hg : fanoutGuard PandasCSV [] dd2 = true := by decide
  rw [read_eq_concat _ _ _ hg]
  have hinner : ∀ afile : String,
      read PandasCSV dd2
          (setItem (buildKw PandasCSV dd2 []) (PandasCSV.url_arg.getD "")
            (PyVal.str afile)) =
        Artifact.loaded "pandas:read_csv"
          [("filepath_or_buffer", PyVal.str "u.csv")] := by
    intro afile
    have hg2 : fanoutGuard PandasCSV
        (setItem (buildKw PandasCSV dd2 []) (PandasCSV.url_arg.getD "")
          (PyVal.str afile)) dd2 = false :=
      fanoutGuard_false_of_hasKey _ _ _ "filepath_or_buffer" rfl
        (hasKey_setItem_self _ _ _)
    rw [read_eq_flat _ _ _ hg2]
    rfl
  rw [show dd2.filelist = ["f1.csv", "f2.csv"] from rfl]
  simp only [List.map_cons, List.map_nil]
  rw [hinner "f1.csv", hinner "f2.csv"]
  rfl

/-- Claim C4: `read` builds the effective kwargs as
`kw = self.data.kwargs.copy(); kw.update(kwargs)`, the override winning on
every collision in the merge; for a variant with no url parameter and no
storage-options flag the backend receives exactly that merged mapping. -/
theorem c4_override_precedence (v : Variant) (d : DataDesc) (o : Dict)
    (k : String) (hso : v.storage_options = false) (hu : v.url_arg = none)
    (hnd : (o.map Prod.fst).Nodup) :
    read v d o = callFunc v d (updateDict d.kwargs o) ∧
    getItem (updateDict d.kwargs o) k = orOpt (getItem o k) (getItem d.kwargs k) := by
  have hg : fanoutGuard v o d = false := by simp [fanoutGuard, hu]
  refine ⟨?_, getItem_updateDict d.kwargs o k hnd⟩
  rw [read_eq_flat _ _ _ hg]
  simp [readFlat, hu, buildKw, hso]

/-- Witness for C4: `read({"x": 1})` on stored kwargs `{"x": 0, "y": 2}`
invokes the backend with `{"x": 1, "y": 2}`. -/
theorem c4_override_precedence_witness :
    Pandas.storage_options = false ∧ Pandas.url_arg = none ∧
    updateDict ddXY.kwargs [("x", PyVal.int 1)] =
      [("x", PyVal.int 1), ("y", PyVal.int 2)] ∧
    (read Pandas ddXY [("x", PyVal.int 1)] =
        callFunc Pandas ddXY (updateDict ddXY.kwargs [("x", PyVal.int 1)]) ∧
      getItem (updateDict ddXY.kwargs [("x", PyVal.int 1)]) "x" =
        orOpt (getItem [("x", PyVal.int 1)] "x") (getItem ddXY.kwargs "x")) :=
  ⟨rfl, rfl, by decide,
    c4_override_precedence Pandas ddXY [("x", PyVal.int 1)] "x" rfl rfl (by decide)⟩

/-- Claim C5: for a descriptor with exactly one file URL (equal to its
primary url, as a resolved single-file descriptor's url is) and a variant
with a concat function, `read()` is a single backend invocation on that
file — the length-1 file list fails the `len(filelist) > 1` test, so no
concatenation step runs and the artifact is merge-free. -/
theorem c5_single_file_idempotence (v : Variant) (d : DataDesc) (u f : String)
    (hu : v.url_arg = some u) (hne : u ≠ "")
    (hc : strOptTruthy v.concat_func = true)
    (hf : d.filelist = [f]) (hurl : d.url = f) :
    read v d [] = callFunc v d (setItem (buildKw v d []) u (PyVal.str f)) ∧
    Artifact.depth (read v d []) = 0 := by
  have hg : fanoutGuard v [] d = false := by simp [fanoutGuard, hf]
  constructor
  · rw [read_eq_flat _ _ _ hg]
    simp [readFlat, hu, hne, hurl]
  · rw [read_eq_flat _ _ _ hg]
    exact depth_readFlat v d _

/-- Witness for C5: `PandasCSV` over a one-file descriptor is one flat
backend call on that file, with no concat node. -/
theorem c5_single_file_idempotence_witness :
    PandasCSV.url_arg = some "filepath_or_buffer" ∧
    "filepath_or_buffer" ≠ "" ∧
    strOptTruthy PandasCSV.concat_func = true ∧
    ddCSV.filelist = ["a.csv"] ∧ ddCSV.url = "a.csv" ∧
    (read PandasCSV ddCSV [] =
        callFunc PandasCSV ddCSV
          (setItem (buildKw PandasCSV ddCSV []) "filepath_or_buffer"
            (PyVal.str "a.csv")) ∧
      Artifact.depth (read PandasCSV ddCSV []) = 0) :=
  ⟨rfl, by decide, rfl, rfl, rfl,
    c5_single_file_idempotence PandasCSV ddCSV "filepath_or_buffer" "a.csv"
      rfl (by decide) rfl rfl rfl⟩

/-- Claim C6 (code bug, same slip as C2): `PandasCSV.glimpse` builds
`kw = {"nrows": 10, self.url_arg: self.data.filelist[0]}`, but the
unconditional `kw[self.url_arg] = self.data.url` inside `read` overwrites
the file-list entry with the primary url before the backend runs: the
backend does receive the 10-row bound and a single flat call (no full
load), but it is pointed at `data.url` (`"all.csv"`), not at the file-list
entry (`"part0.csv"`) that `glimpse` explicitly set. -/
theorem c6_glimpse_uses_primary_url :
    pandasCSVGlimpse dd6 [] =
      some (Artifact.loaded "pandas:read_csv"
        [("nrows", PyVal.int 10), ("filepath_or_buffer", PyVal.str "all.csv")]) ∧
    dd6.filelist = ["part0.csv"] ∧ dd6.url = "all.csv" := by
  refine ⟨?_, rfl, rfl⟩
  have hkw : pandasCSVGlimpse dd6 [] = some (read PandasCSV dd6
      [("nrows", PyVal.int 10), ("filepath_or_buffer", PyVal.str "part0.csv")]) := rfl
  rw [hkw]
  have hg2 : fanoutGuard PandasCSV
      [("nrows", PyVal.int 10), ("filepath_or_buffer", PyVal.str "part0.csv")]
      dd6 = false := by decide
  rw [read_eq_flat _ _ _ hg2]
  rfl

/-- A synthetic variant with the storage-options flag set (no variant in
`readers.py` sets it; the behaviour is `BaseReader.read`'s, lines 54–55). -/
def vStorage : Variant :=
  { imports := [], implements := [], optional_imports := [],
    func := .ref "backend:load", concat_func := none, url_arg := none,
    output_instance := none, storage_options := true }

/-- A descriptor with distinctive storage options. -/
def ddStore : DataDesc :=
  { kind := .CSV, url := "s.csv", filelist := ["s.csv"], kwargs := [],
    storage_options := .blob 7, query := "", conn := none }

/-- Claim C9: when the variant's storage-options flag is set, the
`kw["storage_options"] = self.data.storage_options` injection happens after
`kw.update(kwargs)`, so every backend call in the resulting artifact
receives the descriptor's storage options under `"storage_options"` — the
descriptor value wins over a caller override of that key. (The url
parameter would overwrite the key only if it were literally named
`"storage_options"`, which the hypothesis excludes.) -/
theorem c9_storage_options_injection (v : Variant) (d : DataDesc) (o : Dict)
    (hso : v.storage_options = true)
    (hns : v.url_arg ≠ some "storage_options") :
    Artifact.storageOk d.storage_options (read v d o) = true := by
  have hbuild : ∀ kwargs : Dict,
      getItem (buildKw v d kwargs) "storage_options" = some d.storage_options := by
    intro kwargs
    simp [buildKw, hso, getItem_setItem_self]
  have hflat : ∀ kwargs : Dict, fanoutGuard v kwargs d = false →
      Artifact.storageOk d.storage_options (read v d kwargs) = true := by
    intro kwargs hgf
    rw [read_eq_flat _ _ _ hgf]
    rcases hu : v.url_arg with _ | u
    · simpa [readFlat, hu] using storageOk_callFunc v d _ _ (hbuild kwargs)
    · by_cases he : u = ""
      · simpa [readFlat, hu, he] using storageOk_callFunc v d _ _ (hbuild kwargs)
      · have hune : u ≠ "storage_options" := fun e => hns (by rw [hu, e])
        have hkeep : getItem (setItem (buildKw v d kwargs) u (PyVal.str d.url))
            "storage_options" = some d.storage_options := by
          rw [getItem_setItem_ne _ _ _ _ (fun e => hune e.symm)]
          exact hbuild kwargs
        simpa [readFlat, hu, he] using storageOk_callFunc v d _ _ hkeep
  by_cases hg : fanoutGuard v o d = true
  · rw [read_eq_concat _ _ _ hg]
    obtain ⟨u, hu, hne, hk⟩ := fanoutGuard_dest v o d hg
    simp only [Artifact.storageOk]
    apply storageOkList_of_forall
    intro a ha
    obtain ⟨afile, _, rfl⟩ := List.mem_map.mp ha
    apply hflat
    apply fanoutGuard_false_of_hasKey v _ d u hu
    rw [hu]
    exact hasKey_setItem_self _ _ _
  · exact hflat o (by simpa using hg)

/-- Witness for C9: a caller override `{"storage_options": blob 99}` loses
to the descriptor's `blob 7`. -/
theorem c9_storage_options_injection_witness :
    vStorage.storage_options = true ∧
    vStorage.url_arg ≠ some "storage_options" ∧
    Artifact.storageOk ddStore.storage_options
      (read vStorage ddStore [("storage_options", PyVal.blob 99)]) = true :=
  ⟨rfl, by decide,
    c9_storage_options_injection vStorage ddStore
      [("storage_options", PyVal.blob 99)] rfl (by decide)⟩

/-- Claim C10: `read` terminates on every input — the Lean embedding is a
total function whose recursion is justified by `fanoutMeasure` — and the
fan-out recursion has depth at most one: every recursive sub-call carries
the url parameter in its `kwargs`, which falsifies the fan-out guard in the
inner call, so the artifact of any `read` nests at most one concat level. -/
theorem c10_read_depth_le_one (v : Variant) (d : DataDesc) (o : Dict) :
    Artifact.depth (read v d o) ≤ 1 := by
  by_cases hg : fanoutGuard v o d = true
  · rw [read_eq_concat _ _ _ hg]
    obtain ⟨u, hu, hne, hk⟩ := fanoutGuard_dest v o d hg
    have hparts : ∀ a ∈ d.filelist.map (fun afile =>
        read v d (setItem (buildKw v d o) (v.url_arg.getD "") (PyVal.str afile))),
        Artifact.depth a = 0 := by
      intro a ha
      obtain ⟨afile, _, rfl⟩ := List.mem_map.mp ha
      have hg2 : fanoutGuard v
          (setItem (buildKw v d o) (v.url_arg.getD "") (PyVal.str afile)) d
            = false := by
        apply fanoutGuard_false_of_hasKey v _ d u hu
        rw [hu]
        exact hasKey_setItem_self _ _ _
      rw [read_eq_flat _ _ _ hg2]
      exact depth_readFlat v d _
    simp only [Artifact.depth]
    rw [depthList_eq_zero _ hparts]
  · rw [read_eq_flat _ _ _ (by simpa using hg), depth_readFlat]
    exact Nat.zero_le 1

end Intake
